import Mathlib

/-!
Verification of the dense 3-dimensional tensor fragment
(src/include/frugally_deep/matrix3d.h).

Scalars (C++ `float_t`) are modelled as rationals; every scalar operation the
source performs on the inputs considered here (comparison, addition, negation,
absolute value) is exact in IEEE float on those inputs, so the rational model
agrees with the float semantics there.  The two sentinel constants of
`matrix3d_min_max_pos` are the exact values of `std::numeric_limits<float>::min()`
and `std::numeric_limits<float>::max()`.
-/

set_option autoImplicit false

namespace fd

/-- Modelled from the spec: `size3d`, the shape collaborator — an immutable
(depth, height, width) triple of non-negative extents (its header is not part
of the provided sources). -/
structure size3d where
  depth_ : Nat
  height_ : Nat
  width_ : Nat
deriving DecidableEq, Repr

/-- Modelled from the spec: `volume() = depth × height × width`. -/
def size3d.volume (s : size3d) : Nat :=
  s.depth_ * s.height_ * s.width_

/-- Modelled from the spec: `matrix3d_pos`, the position collaborator — an
immutable (z, y, x) coordinate triple (its header is not part of the provided
sources). -/
structure matrix3d_pos where
  z_ : Nat
  y_ : Nat
  x_ : Nat
deriving DecidableEq, Repr

/-- Exact value of `std::numeric_limits<float>::min()`, the smallest positive
normalized single-precision value, used by the source as the initial running
maximum. -/
def float_limit_min : ℚ := 1 / 2 ^ 126

/-- Exact value of `std::numeric_limits<float>::max()`, used by the source as
the initial running minimum. -/
def float_limit_max : ℚ := (2 ^ 24 - 1) * 2 ^ 104

/-- The tensor: a shape and a flat row-major buffer of scalars.  The C++
constructor only `assert`s the length agreement (debug builds), so the type
itself does not enforce it; the invariant is the predicate `wf` below. -/
structure matrix3d where
  size_ : size3d
  values_ : List ℚ
deriving DecidableEq, Repr

/-- `matrix3d::idx`: row-major linearization of a position. -/
def matrix3d.idx (m : matrix3d) (pos : matrix3d_pos) : Nat :=
  pos.z_ * m.size_.height_ * m.size_.width_ +
  pos.y_ * m.size_.width_ +
  pos.x_

/-- `matrix3d::get`: unchecked read of the buffer at the linearized index
(C++ `vector::operator[]`; out-of-buffer reads are undefined behaviour there
and are modelled by the default 0, which no theorem below relies on). -/
def matrix3d.get (m : matrix3d) (pos : matrix3d_pos) : ℚ :=
  m.values_.getD (m.idx pos) 0

/-- `matrix3d::set`: unchecked in-place write at the linearized index
(an out-of-buffer `List.set` is a no-op, matching no theorem below). -/
def matrix3d.set (m : matrix3d) (pos : matrix3d_pos) (value : ℚ) : matrix3d :=
  ⟨m.size_, m.values_.set (m.idx pos) value⟩

/-- `matrix3d::as_vector`: the flat row-major backing sequence. -/
def matrix3d.as_vector (m : matrix3d) : List ℚ :=
  m.values_

/-- The one-argument C++ constructor `matrix3d(shape)`: `shape.volume()`
elements, all zero. -/
def matrix3dOfSize (shape : size3d) : matrix3d :=
  ⟨shape, List.replicate shape.volume 0⟩

/-- The row-major traversal order of the triple loops of the source:
z outer, y middle, x inner. -/
def posRange (d h w : Nat) : List matrix3d_pos :=
  (List.range d).flatMap fun z =>
    (List.range h).flatMap fun y =>
      (List.range w).map fun x => ⟨z, y, x⟩

/-- `transform_matrix3d`: starts from a zero-filled tensor of the same extents
and sets every coordinate, in the source loop order, to `f` of the input
element there. -/
def transform_matrix3d (f : ℚ → ℚ) (in_vol : matrix3d) : matrix3d :=
  (posRange in_vol.size_.depth_ in_vol.size_.height_ in_vol.size_.width_).foldl
    (fun out_vol p => out_vol.set p (f (in_vol.get p)))
    (matrix3dOfSize ⟨in_vol.size_.depth_, in_vol.size_.height_, in_vol.size_.width_⟩)

/-- `reshape_matrix3d`: rebuild with the new shape over the unchanged buffer. -/
def reshape_matrix3d (in_vol : matrix3d) (out_size : size3d) : matrix3d :=
  ⟨out_size, in_vol.as_vector⟩

/-- The scan state of `matrix3d_min_max_pos`: the four locals
`result_min`, `result_max`, `value_max`, `value_min`. -/
structure mmState where
  result_min : matrix3d_pos
  result_max : matrix3d_pos
  value_max : ℚ
  value_min : ℚ
deriving DecidableEq, Repr

/-- One iteration of the scan loop body: the strictly-greater test against the
running maximum, then the strictly-less test against the running minimum
(the two branches touch disjoint fields, so sequencing them is faithful). -/
def mmStep (vol : matrix3d) (st : mmState) (p : matrix3d_pos) : mmState :=
  let current_value := vol.get p
  let st1 : mmState :=
    if st.value_max < current_value then
      ⟨st.result_min, p, current_value, st.value_min⟩
    else st
  if current_value < st1.value_min then
    ⟨p, st1.result_max, st1.value_max, current_value⟩
  else st1

/-- `matrix3d_min_max_pos`: scan all positions in row-major order from the
sentinel state and return `(result_min, result_max)`. -/
def matrix3d_min_max_pos (vol : matrix3d) : matrix3d_pos × matrix3d_pos :=
  let final :=
    (posRange vol.size_.depth_ vol.size_.height_ vol.size_.width_).foldl
      (mmStep vol)
      ⟨⟨0, 0, 0⟩, ⟨0, 0, 0⟩, float_limit_min, float_limit_max⟩
  (final.result_min, final.result_max)

/-- `matrix3d_max_pos`: the second component of the pair. -/
def matrix3d_max_pos (vol : matrix3d) : matrix3d_pos :=
  (matrix3d_min_max_pos vol).2

/-- `matrix3d_min_pos`: as written in the source, also the second component of
the pair. -/
def matrix3d_min_pos (vol : matrix3d) : matrix3d_pos :=
  (matrix3d_min_max_pos vol).2

/-- `matrix3d_min_max_value`: the elements at the two scanned positions. -/
def matrix3d_min_max_value (vol : matrix3d) : ℚ × ℚ :=
  (vol.get (matrix3d_min_max_pos vol).1, vol.get (matrix3d_min_max_pos vol).2)

/-- `matrix3d_max_value`. -/
def matrix3d_max_value (m : matrix3d) : ℚ :=
  m.get (matrix3d_max_pos m)

/-- `matrix3d_min_value`. -/
def matrix3d_min_value (m : matrix3d) : ℚ :=
  m.get (matrix3d_min_pos m)

/-- `add_matrix3ds`: shape of the first operand over the zipped sums
(the shape assert is debug-only and appears as a hypothesis of the theorems). -/
def add_matrix3ds (m1 m2 : matrix3d) : matrix3d :=
  ⟨m1.size_, List.zipWith (fun a b => a + b) m1.values_ m2.values_⟩

/-- `multiply_matrix3d`: elementwise scalar product via `transform_matrix3d`. -/
def multiply_matrix3d (m : matrix3d) (factor : ℚ) : matrix3d :=
  transform_matrix3d (fun x => factor * x) m

/-- `divide_matrix3d`: multiplication by the reciprocal.  (For a zero divisor
the rational reciprocal is 0 where float gives infinity; no theorem below
divides by zero.) -/
def divide_matrix3d (m : matrix3d) (divisor : ℚ) : matrix3d :=
  multiply_matrix3d m (1 / divisor)

/-- `sub_matrix3d`: addition of the (-1)-scaled second operand. -/
def sub_matrix3d (m1 m2 : matrix3d) : matrix3d :=
  add_matrix3ds m1 (multiply_matrix3d m2 (-1))

/-- `abs_matrix3d_values`: elementwise absolute value. -/
def abs_matrix3d_values (m : matrix3d) : matrix3d :=
  transform_matrix3d (fun x => |x|) m

/-- `abs_diff_matrix3ds`. -/
def abs_diff_matrix3ds (m1 m2 : matrix3d) : matrix3d :=
  abs_matrix3d_values (sub_matrix3d m1 m2)

/-- `matrix3d_sum_all_values`. -/
def matrix3d_sum_all_values (m : matrix3d) : ℚ :=
  m.values_.sum

/-- A position lies within the bounds of a shape. -/
def pos_in_bounds (s : size3d) (p : matrix3d_pos) : Prop :=
  p.z_ < s.depth_ ∧ p.y_ < s.height_ ∧ p.x_ < s.width_

instance (s : size3d) (p : matrix3d_pos) : Decidable (pos_in_bounds s p) := by
  unfold pos_in_bounds
  infer_instance

/-- The length invariant of the spec: the flat buffer has exactly
`shape.volume()` entries. -/
def wf (m : matrix3d) : Prop :=
  m.values_.length = m.size_.volume

instance (m : matrix3d) : Decidable (wf m) := by
  unfold wf
  infer_instance

/-! ### Helper lemmas -/

lemma list_getD_set_self (l : List ℚ) (i : Nat) (v : ℚ) (h : i < l.length) :
    (l.set i v).getD i 0 = v := by
  have hl : i < (l.set i v).length := by
    rw [List.length_set]
    exact h
  rw [List.getD_eq_getElem _ _ hl]
  exact List.getElem_set_self hl

lemma list_getD_set_ne (l : List ℚ) (i j : Nat) (v : ℚ) (h : i ≠ j) :
    (l.set i v).getD j 0 = l.getD j 0 := by
  by_cases hj : j < l.length
  · have hj2 : j < (l.set i v).length := by
      rw [List.length_set]
      exact hj
    rw [List.getD_eq_getElem _ _ hj2, List.getD_eq_getElem _ _ hj]
    exact List.getElem_set_ne h hj2
  · have hj3 : l.length ≤ j := Nat.le_of_not_lt hj
    have hj4 : (l.set i v).length ≤ j := by
      rw [List.length_set]
      exact hj3
    rw [List.getD_eq_default _ _ hj4, List.getD_eq_default _ _ hj3]

lemma length_flatMap_const {α β : Type} (f : α → List β) (n : Nat) :
    ∀ l : List α, (∀ a ∈ l, (f a).length = n) → (l.flatMap f).length = l.length * n := by
  intro l
  induction l with
  | nil => intro _; simp
  | cons a l ih =>
    intro hmem
    rw [List.flatMap_cons, List.length_append, ih fun b hb => hmem b (List.mem_cons_of_mem a hb),
      hmem a (List.mem_cons_self a l), List.length_cons, Nat.succ_mul, Nat.add_comm]

lemma posRange_length (d h w : Nat) : (posRange d h w).length = d * h * w := by
  unfold posRange
  rw [length_flatMap_const _ (h * w), List.length_range, ← Nat.mul_assoc]
  intro z _
  rw [length_flatMap_const _ w, List.length_range]
  intro y _
  rw [List.length_map, List.length_range]

lemma posRange_eq_nil {d h w : Nat} (h0 : d * h * w = 0) : posRange d h w = [] := by
  apply List.eq_nil_of_length_eq_zero
  rw [posRange_length]
  exact h0

lemma mem_posRange {d h w : Nat} {p : matrix3d_pos} :
    p ∈ posRange d h w ↔ p.z_ < d ∧ p.y_ < h ∧ p.x_ < w := by
  unfold posRange
  constructor
  · intro hp
    obtain ⟨z, hz, hp1⟩ := List.mem_flatMap.mp hp
    obtain ⟨y, hy, hp2⟩ := List.mem_flatMap.mp hp1
    obtain ⟨x, hx, rfl⟩ := List.mem_map.mp hp2
    exact ⟨List.mem_range.mp hz, List.mem_range.mp hy, List.mem_range.mp hx⟩
  · rintro ⟨hz, hy, hx⟩
    refine List.mem_flatMap.mpr ⟨p.z_, List.mem_range.mpr hz, ?_⟩
    refine List.mem_flatMap.mpr ⟨p.y_, List.mem_range.mpr hy, ?_⟩
    exact List.mem_map.mpr ⟨p.x_, List.mem_range.mpr hx, rfl⟩

lemma rowmajor_lt_volume {d h w z y x : Nat} (hz : z < d) (hy : y < h) (hx : x < w) :
    z * h * w + y * w + x < d * h * w :=
  calc z * h * w + y * w + x
      < z * h * w + y * w + w := Nat.add_lt_add_left hx _
    _ = z * h * w + (y + 1) * w := by ring
    _ ≤ z * h * w + h * w := Nat.add_le_add_left (Nat.mul_le_mul_right w hy) _
    _ = (z + 1) * (h * w) := by ring
    _ ≤ d * (h * w) := Nat.mul_le_mul_right (h * w) hz
    _ = d * h * w := by ring

lemma split_base {b q1 r1 q2 r2 : Nat} (h1 : r1 < b) (h2 : r2 < b)
    (heq : r1 + q1 * b = r2 + q2 * b) : r1 = r2 ∧ q1 = q2 := by
  have hr : r1 = r2 := by
    have h3 := congrArg (fun t => t % b) heq
    simpa [Nat.add_mul_mod_self_right, Nat.mod_eq_of_lt h1, Nat.mod_eq_of_lt h2] using h3
  subst hr
  have hb : 0 < b := Nat.lt_of_le_of_lt (Nat.zero_le r1) h1
  have hq : q1 * b = q2 * b := Nat.add_left_cancel heq
  exact ⟨rfl, Nat.eq_of_mul_eq_mul_right hb hq⟩

lemma rowmajor_inj {hh ww z y x z2 y2 x2 : Nat} (hy : y < hh) (hx : x < ww)
    (hy2 : y2 < hh) (hx2 : x2 < ww)
    (heq : z * hh * ww + y * ww + x = z2 * hh * ww + y2 * ww + x2) :
    z = z2 ∧ y = y2 ∧ x = x2 := by
  have e1 : z * hh * ww + y * ww + x = x + (y + z * hh) * ww := by ring
  have e2 : z2 * hh * ww + y2 * ww + x2 = x2 + (y2 + z2 * hh) * ww := by ring
  rw [e1, e2] at heq
  obtain ⟨hxx, hk⟩ := split_base hx hx2 heq
  obtain ⟨hyy, hzz⟩ := split_base hy hy2 hk
  exact ⟨hzz, hyy, hxx⟩

lemma foldl_set_length (g : matrix3d_pos → ℚ) (l : List matrix3d_pos) :
    ∀ acc : matrix3d,
      (l.foldl (fun o p => o.set p (g p)) acc).values_.length = acc.values_.length ∧
      (l.foldl (fun o p => o.set p (g p)) acc).size_ = acc.size_ := by
  induction l with
  | nil => exact fun acc => ⟨rfl, rfl⟩
  | cons p l ih =>
    intro acc
    have h1 := ih (acc.set p (g p))
    rw [List.foldl_cons]
    refine ⟨?_, ?_⟩
    · rw [h1.1]
      show (acc.values_.set (acc.idx p) (g p)).length = acc.values_.length
      exact List.length_set acc.values_ _ _
    · rw [h1.2]
      rfl

lemma transform_size (f : ℚ → ℚ) (m : matrix3d) :
    (transform_matrix3d f m).size_ = m.size_ := by
  unfold transform_matrix3d
  exact (foldl_set_length (fun p => f (m.get p)) _ _).2

lemma transform_wf (f : ℚ → ℚ) (m : matrix3d) : wf (transform_matrix3d f m) := by
  unfold wf
  rw [transform_size]
  unfold transform_matrix3d
  rw [(foldl_set_length (fun p => f (m.get p)) _ _).1]
  show (List.replicate (size3d.volume m.size_) 0).length = m.size_.volume
  exact List.length_replicate _ _

lemma add_wf {a b : matrix3d} (ha : wf a) (hb : wf b) (hab : a.size_ = b.size_) :
    wf (add_matrix3ds a b) := by
  show (List.zipWith (fun u v => u + v) a.values_ b.values_).length = a.size_.volume
  rw [List.length_zipWith, ha, hb, hab]
  exact min_self _

lemma sub_wf {a b : matrix3d} (ha : wf a) (_hb : wf b) (hab : a.size_ = b.size_) :
    wf (sub_matrix3d a b) := by
  unfold sub_matrix3d multiply_matrix3d
  refine add_wf ha (transform_wf _ b) ?_
  rw [transform_size]
  exact hab

/-! ### Claim theorems -/

/-- C2: for every tensor, `matrix3d_min_pos` returns exactly what
`matrix3d_max_pos` returns, namely the second (maximum) component of the pair
produced by `matrix3d_min_max_pos` — the copy-paste defect of the source. -/
theorem min_pos_eq_max_pos (vol : matrix3d) :
    matrix3d_min_pos vol = matrix3d_max_pos vol ∧
    matrix3d_min_pos vol = (matrix3d_min_max_pos vol).2 :=
  ⟨rfl, rfl⟩

/-- C9: on a tensor of volume 0 the scan loop body never runs, so
`matrix3d_min_max_pos` returns the sentinel pair ((0,0,0), (0,0,0)); the
position (0,0,0) is not within bounds of such a shape. -/
theorem min_max_pos_empty_sentinel (m : matrix3d) (h0 : m.size_.volume = 0) :
    matrix3d_min_max_pos m = (⟨0, 0, 0⟩, ⟨0, 0, 0⟩) ∧
    ¬ pos_in_bounds m.size_ ⟨0, 0, 0⟩ := by
  constructor
  · unfold matrix3d_min_max_pos
    rw [posRange_eq_nil h0]
    rfl
  · intro hb
    obtain ⟨hz, hy, hx⟩ := hb
    have h1 : 0 < m.size_.volume := by
      unfold size3d.volume
      exact Nat.mul_pos (Nat.mul_pos hz hy) hx
    rw [h0] at h1
    exact Nat.lt_irrefl 0 h1

/-- Witness for C9 at the empty tensor of shape (0, 2, 3). -/
theorem min_max_pos_empty_sentinel_witness :
    (matrix3d.mk ⟨0, 2, 3⟩ []).size_.volume = 0 ∧
    (matrix3d_min_max_pos ⟨⟨0, 2, 3⟩, []⟩ = (⟨0, 0, 0⟩, ⟨0, 0, 0⟩) ∧
      ¬ pos_in_bounds (matrix3d.mk ⟨0, 2, 3⟩ []).size_ ⟨0, 0, 0⟩) :=
  ⟨by decide, min_max_pos_empty_sentinel ⟨⟨0, 2, 3⟩, []⟩ (by decide)⟩

/-- C1: counterevidence at the non-empty tensor of shape (1,1,2) with data
[-2, -1].  Because the running maximum starts at
`std::numeric_limits<float>::min()` — a small positive value, not the lowest
float — no strictly-greater update ever fires on this all-negative tensor, and
the returned max position (0,0,0) holds the element -2, strictly smaller than
the element -1 at the in-bounds position (0,0,1); the true first occurrence of
the maximum is (0,0,1). -/
theorem min_max_pos_misses_negative_maximum :
    matrix3d_min_max_pos ⟨⟨1, 1, 2⟩, [-2, -1]⟩ = (⟨0, 0, 0⟩, ⟨0, 0, 0⟩) ∧
    (matrix3d.mk ⟨1, 1, 2⟩ [-2, -1]).get ⟨0, 0, 0⟩ <
      (matrix3d.mk ⟨1, 1, 2⟩ [-2, -1]).get ⟨0, 0, 1⟩ ∧
    pos_in_bounds ⟨1, 1, 2⟩ ⟨0, 0, 1⟩ ∧
    (matrix3d.mk ⟨1, 1, 2⟩ [-2, -1]).size_.volume ≠ 0 := by
  refine ⟨?_, ?_, by decide, by decide⟩
  · norm_num [matrix3d_min_max_pos, posRange, mmStep, matrix3d.get, matrix3d.idx,
      float_limit_min, float_limit_max, List.range_succ]
  · norm_num [matrix3d.get, matrix3d.idx]

/-- C3: evaluation of the spec example, shape (1,2,2) with data [1,2,3,4].
The reads and the max projections agree with the claim, but `matrix3d_min_value`
returns 4 (not 1) and `matrix3d_min_pos` returns (0,1,1) (not (0,0,0)), because
`matrix3d_min_pos` projects the maximum component of the scanned pair; only the
first components of `matrix3d_min_max_pos` and `matrix3d_min_max_value` carry
the claimed minimum data. -/
theorem example_tensor_min_value_eval :
    (matrix3d.mk ⟨1, 2, 2⟩ [1, 2, 3, 4]).get ⟨0, 0, 0⟩ = 1 ∧
    (matrix3d.mk ⟨1, 2, 2⟩ [1, 2, 3, 4]).get ⟨0, 1, 1⟩ = 4 ∧
    matrix3d_max_value ⟨⟨1, 2, 2⟩, [1, 2, 3, 4]⟩ = 4 ∧
    matrix3d_max_pos ⟨⟨1, 2, 2⟩, [1, 2, 3, 4]⟩ = ⟨0, 1, 1⟩ ∧
    matrix3d_min_value ⟨⟨1, 2, 2⟩, [1, 2, 3, 4]⟩ = 4 ∧
    matrix3d_min_pos ⟨⟨1, 2, 2⟩, [1, 2, 3, 4]⟩ = ⟨0, 1, 1⟩ ∧
    (matrix3d_min_max_pos ⟨⟨1, 2, 2⟩, [1, 2, 3, 4]⟩).1 = ⟨0, 0, 0⟩ ∧
    (matrix3d_min_max_value ⟨⟨1, 2, 2⟩, [1, 2, 3, 4]⟩).1 = 1 := by
  refine ⟨by norm_num [matrix3d.get, matrix3d.idx], by norm_num [matrix3d.get, matrix3d.idx],
    ?_, ?_, ?_, ?_, ?_, ?_⟩ <;>
    norm_num [matrix3d_max_value, matrix3d_min_value, matrix3d_max_pos, matrix3d_min_pos,
      matrix3d_min_max_value, matrix3d_min_max_pos, posRange, mmStep,
      matrix3d.get, matrix3d.idx, float_limit_min, float_limit_max, List.range_succ]

/-- C4: under the volume precondition, reshape leaves the flat row-major
sequence exactly unchanged (so the element at any old flat index stays at the
same flat index), and reshaping the result back to the original shape yields
the original tensor. -/
theorem reshape_preserves_flat_sequence (T : matrix3d) (S2 : size3d)
    (_hvol : S2.volume = T.size_.volume) :
    (reshape_matrix3d T S2).as_vector = T.as_vector ∧
    reshape_matrix3d (reshape_matrix3d T S2) T.size_ = T :=
  ⟨rfl, rfl⟩

/-- Witness for C4: the spec example, shape (2,1,1) with data [5,6] reshaped
to (1,1,2). -/
theorem reshape_preserves_flat_sequence_witness :
    (size3d.mk 1 1 2).volume = (matrix3d.mk ⟨2, 1, 1⟩ [5, 6]).size_.volume ∧
    ((reshape_matrix3d ⟨⟨2, 1, 1⟩, [5, 6]⟩ ⟨1, 1, 2⟩).as_vector =
        (matrix3d.mk ⟨2, 1, 1⟩ [5, 6]).as_vector ∧
      reshape_matrix3d (reshape_matrix3d ⟨⟨2, 1, 1⟩, [5, 6]⟩ ⟨1, 1, 2⟩)
        (matrix3d.mk ⟨2, 1, 1⟩ [5, 6]).size_ = ⟨⟨2, 1, 1⟩, [5, 6]⟩) :=
  ⟨by decide, reshape_preserves_flat_sequence ⟨⟨2, 1, 1⟩, [5, 6]⟩ ⟨1, 1, 2⟩ (by decide)⟩

/-- C5: on a tensor satisfying the length invariant, the linearized index of
an in-bounds position (z,y,x) is exactly z·height·width + y·width + x, that
index is within the buffer, get reads the buffer there, and set writes the
buffer there. -/
theorem get_set_use_rowmajor_index (m : matrix3d) (z y x : Nat) (v : ℚ)
    (hwf : wf m) (hz : z < m.size_.depth_) (hy : y < m.size_.height_)
    (hx : x < m.size_.width_) :
    m.idx ⟨z, y, x⟩ = z * m.size_.height_ * m.size_.width_ + y * m.size_.width_ + x ∧
    z * m.size_.height_ * m.size_.width_ + y * m.size_.width_ + x < m.values_.length ∧
    m.get ⟨z, y, x⟩ =
      m.values_.getD (z * m.size_.height_ * m.size_.width_ + y * m.size_.width_ + x) 0 ∧
    (m.set ⟨z, y, x⟩ v).values_ =
      m.values_.set (z * m.size_.height_ * m.size_.width_ + y * m.size_.width_ + x) v := by
  refine ⟨rfl, ?_, rfl, rfl⟩
  rw [hwf]
  exact rowmajor_lt_volume hz hy hx

/-- Witness for C5 at the tensor of shape (1,2,2) with data [1,2,3,4],
position (0,1,1). -/
theorem get_set_use_rowmajor_index_witness :
    wf ⟨⟨1, 2, 2⟩, [1, 2, 3, 4]⟩ ∧ 0 < 1 ∧ 1 < 2 ∧ 1 < 2 ∧
    ((matrix3d.mk ⟨1, 2, 2⟩ [1, 2, 3, 4]).idx ⟨0, 1, 1⟩ = 0 * 2 * 2 + 1 * 2 + 1 ∧
      0 * 2 * 2 + 1 * 2 + 1 < (matrix3d.mk ⟨1, 2, 2⟩ [1, 2, 3, 4]).values_.length ∧
      (matrix3d.mk ⟨1, 2, 2⟩ [1, 2, 3, 4]).get ⟨0, 1, 1⟩ =
        (matrix3d.mk ⟨1, 2, 2⟩ [1, 2, 3, 4]).values_.getD (0 * 2 * 2 + 1 * 2 + 1) 0 ∧
      ((matrix3d.mk ⟨1, 2, 2⟩ [1, 2, 3, 4]).set ⟨0, 1, 1⟩ 9).values_ =
        (matrix3d.mk ⟨1, 2, 2⟩ [1, 2, 3, 4]).values_.set (0 * 2 * 2 + 1 * 2 + 1) 9) :=
  ⟨by decide, by decide, by decide, by decide,
    get_set_use_rowmajor_index ⟨⟨1, 2, 2⟩, [1, 2, 3, 4]⟩ 0 1 1 9
      (by decide) (by decide) (by decide) (by decide)⟩

/-- C6: on a tensor satisfying the length invariant, setting an in-bounds
position and reading it back yields the written value, and reading any other
in-bounds position yields the value it had before the set. -/
theorem set_get_frame (m : matrix3d) (p q : matrix3d_pos) (v : ℚ)
    (hwf : wf m) (hp : pos_in_bounds m.size_ p) (hq : pos_in_bounds m.size_ q)
    (hne : q ≠ p) :
    (m.set p v).get p = v ∧ (m.set p v).get q = m.get q := by
  obtain ⟨pz, py, px⟩ := p
  obtain ⟨qz, qy, qx⟩ := q
  obtain ⟨hpz, hpy, hpx⟩ := hp
  obtain ⟨hqz, hqy, hqx⟩ := hq
  constructor
  · show (m.values_.set (m.idx ⟨pz, py, px⟩) v).getD (m.idx ⟨pz, py, px⟩) 0 = v
    apply list_getD_set_self
    rw [hwf]
    exact rowmajor_lt_volume hpz hpy hpx
  · show (m.values_.set (m.idx ⟨pz, py, px⟩) v).getD (m.idx ⟨qz, qy, qx⟩) 0 =
      m.values_.getD (m.idx ⟨qz, qy, qx⟩) 0
    apply list_getD_set_ne
    intro heq
    obtain ⟨hz, hy, hx⟩ := rowmajor_inj hpy hpx hqy hqx heq
    have hz2 : pz = qz := hz
    have hy2 : py = qy := hy
    have hx2 : px = qx := hx
    exact hne (by rw [hz2, hy2, hx2])

/-- Witness for C6 at the tensor of shape (1,2,2) with data [1,2,3,4],
written position (0,1,0), observed position (0,0,1). -/
theorem set_get_frame_witness :
    wf ⟨⟨1, 2, 2⟩, [1, 2, 3, 4]⟩ ∧
    pos_in_bounds (matrix3d.mk ⟨1, 2, 2⟩ [1, 2, 3, 4]).size_ ⟨0, 1, 0⟩ ∧
    pos_in_bounds (matrix3d.mk ⟨1, 2, 2⟩ [1, 2, 3, 4]).size_ ⟨0, 0, 1⟩ ∧
    (matrix3d_pos.mk 0 0 1 ≠ ⟨0, 1, 0⟩) ∧
    (((matrix3d.mk ⟨1, 2, 2⟩ [1, 2, 3, 4]).set ⟨0, 1, 0⟩ 9).get ⟨0, 1, 0⟩ = 9 ∧
      ((matrix3d.mk ⟨1, 2, 2⟩ [1, 2, 3, 4]).set ⟨0, 1, 0⟩ 9).get ⟨0, 0, 1⟩ =
        (matrix3d.mk ⟨1, 2, 2⟩ [1, 2, 3, 4]).get ⟨0, 0, 1⟩) :=
  ⟨by decide, by decide, by decide, by decide,
    set_get_frame ⟨⟨1, 2, 2⟩, [1, 2, 3, 4]⟩ ⟨0, 1, 0⟩ ⟨0, 0, 1⟩ 9
      (by decide) (by decide) (by decide) (by decide)⟩

/-- C7: every construction and every operation of the source yields a tensor
whose flat buffer length equals the volume of its shape: construction from
shape and matching data, zero-filled construction, set, transform, reshape
under its volume precondition, add, subtract, scalar multiply, scalar divide,
absolute values, and absolute difference. -/
theorem length_invariant_preserved (s s2 : size3d) (dat : List ℚ)
    (m a b : matrix3d) (p : matrix3d_pos) (v c : ℚ) (f : ℚ → ℚ)
    (hdat : dat.length = s.volume) (hm : wf m) (ha : wf a) (hb : wf b)
    (hab : a.size_ = b.size_) (hs2 : s2.volume = m.size_.volume) :
    wf ⟨s, dat⟩ ∧
    wf (matrix3dOfSize s) ∧
    wf (m.set p v) ∧
    wf (transform_matrix3d f m) ∧
    wf (reshape_matrix3d m s2) ∧
    wf (add_matrix3ds a b) ∧
    wf (sub_matrix3d a b) ∧
    wf (multiply_matrix3d m c) ∧
    wf (divide_matrix3d m c) ∧
    wf (abs_matrix3d_values m) ∧
    wf (abs_diff_matrix3ds a b) := by
  refine ⟨hdat, List.length_replicate _ _, ?_, transform_wf f m, ?_,
    add_wf ha hb hab, sub_wf ha hb hab, transform_wf _ m, transform_wf _ m,
    transform_wf _ m, transform_wf _ _⟩
  · show (m.values_.set (m.idx p) v).length = m.size_.volume
    rw [List.length_set]
    exact hm
  · show m.values_.length = s2.volume
    rw [hs2]
    exact hm

/-- Witness for C7 at small concrete tensors and the successor function. -/
theorem length_invariant_preserved_witness :
    (([1, 2] : List ℚ).length = (size3d.mk 1 1 2).volume ∧
      wf ⟨⟨1, 1, 2⟩, [1, 2]⟩ ∧ wf ⟨⟨1, 1, 2⟩, [3, 4]⟩ ∧
      (matrix3d.mk ⟨1, 1, 2⟩ [1, 2]).size_ = (matrix3d.mk ⟨1, 1, 2⟩ [3, 4]).size_ ∧
      (size3d.mk 2 1 1).volume = (matrix3d.mk ⟨1, 1, 2⟩ [1, 2]).size_.volume) ∧
    (wf ⟨⟨1, 1, 2⟩, [1, 2]⟩ ∧
      wf (matrix3dOfSize ⟨1, 1, 2⟩) ∧
      wf ((matrix3d.mk ⟨1, 1, 2⟩ [1, 2]).set ⟨0, 0, 0⟩ 5) ∧
      wf (transform_matrix3d (fun x => x + 1) ⟨⟨1, 1, 2⟩, [1, 2]⟩) ∧
      wf (reshape_matrix3d ⟨⟨1, 1, 2⟩, [1, 2]⟩ ⟨2, 1, 1⟩) ∧
      wf (add_matrix3ds ⟨⟨1, 1, 2⟩, [1, 2]⟩ ⟨⟨1, 1, 2⟩, [3, 4]⟩) ∧
      wf (sub_matrix3d ⟨⟨1, 1, 2⟩, [1, 2]⟩ ⟨⟨1, 1, 2⟩, [3, 4]⟩) ∧
      wf (multiply_matrix3d ⟨⟨1, 1, 2⟩, [1, 2]⟩ 2) ∧
      wf (divide_matrix3d ⟨⟨1, 1, 2⟩, [1, 2]⟩ 2) ∧
      wf (abs_matrix3d_values ⟨⟨1, 1, 2⟩, [1, 2]⟩) ∧
      wf (abs_diff_matrix3ds ⟨⟨1, 1, 2⟩, [1, 2]⟩ ⟨⟨1, 1, 2⟩, [3, 4]⟩)) :=
  ⟨⟨by decide, by decide, by decide, by decide, by decide⟩,
    length_invariant_preserved ⟨1, 1, 2⟩ ⟨2, 1, 1⟩ [1, 2]
      ⟨⟨1, 1, 2⟩, [1, 2]⟩ ⟨⟨1, 1, 2⟩, [1, 2]⟩ ⟨⟨1, 1, 2⟩, [3, 4]⟩ ⟨0, 0, 0⟩ 5 2
      (fun x => x + 1)
      (by decide) (by decide) (by decide) (by decide) (by decide) (by decide)⟩

/-- C8: for equal-shaped operands, elementwise addition is commutative, and
subtraction is definitionally addition of the operand scaled by -1. -/
theorem add_commutes_sub_via_add (A B : matrix3d) (hab : A.size_ = B.size_) :
    add_matrix3ds A B = add_matrix3ds B A ∧
    sub_matrix3d A B = add_matrix3ds A (multiply_matrix3d B (-1)) := by
  refine ⟨?_, rfl⟩
  unfold add_matrix3ds
  rw [hab, List.zipWith_comm_of_comm]
  intro x y
  exact add_comm x y

/-- Witness for C8 at two equal-shaped concrete tensors. -/
theorem add_commutes_sub_via_add_witness :
    (matrix3d.mk ⟨1, 1, 2⟩ [1, 2]).size_ = (matrix3d.mk ⟨1, 1, 2⟩ [3, 4]).size_ ∧
    (add_matrix3ds ⟨⟨1, 1, 2⟩, [1, 2]⟩ ⟨⟨1, 1, 2⟩, [3, 4]⟩ =
        add_matrix3ds ⟨⟨1, 1, 2⟩, [3, 4]⟩ ⟨⟨1, 1, 2⟩, [1, 2]⟩ ∧
      sub_matrix3d ⟨⟨1, 1, 2⟩, [1, 2]⟩ ⟨⟨1, 1, 2⟩, [3, 4]⟩ =
        add_matrix3ds ⟨⟨1, 1, 2⟩, [1, 2]⟩ (multiply_matrix3d ⟨⟨1, 1, 2⟩, [3, 4]⟩ (-1))) :=
  ⟨by decide,
    add_commutes_sub_via_add ⟨⟨1, 1, 2⟩, [1, 2]⟩ ⟨⟨1, 1, 2⟩, [3, 4]⟩ (by decide)⟩

/-- C10: neither get nor set checks coordinates.  On a tensor of depth ≥ 1,
height ≥ 2 and width ≥ 1 satisfying the length invariant, the position
(0, 0, width) is out of bounds, yet it linearizes to the same flat index as the
in-bounds position (0, 1, 0), an index inside the buffer; get at the
out-of-bounds position silently returns the element of (0, 1, 0), and set at
the out-of-bounds position silently overwrites it. -/
theorem unchecked_access_aliases (m : matrix3d) (v : ℚ)
    (hwf : wf m) (hd : 1 ≤ m.size_.depth_) (hh : 2 ≤ m.size_.height_)
    (hw : 1 ≤ m.size_.width_) :
    ¬ pos_in_bounds m.size_ ⟨0, 0, m.size_.width_⟩ ∧
    pos_in_bounds m.size_ ⟨0, 1, 0⟩ ∧
    m.idx ⟨0, 0, m.size_.width_⟩ = m.idx ⟨0, 1, 0⟩ ∧
    m.idx ⟨0, 1, 0⟩ < m.values_.length ∧
    m.get ⟨0, 0, m.size_.width_⟩ = m.get ⟨0, 1, 0⟩ ∧
    (m.set ⟨0, 0, m.size_.width_⟩ v).get ⟨0, 1, 0⟩ = v := by
  have hidx1 : m.idx ⟨0, 0, m.size_.width_⟩ = m.size_.width_ := by
    simp [matrix3d.idx]
  have hidx2 : m.idx ⟨0, 1, 0⟩ = m.size_.width_ := by
    simp [matrix3d.idx]
  have h2 : 2 ≤ m.size_.depth_ * m.size_.height_ :=
    le_trans (by decide) (Nat.mul_le_mul hd hh)
  have hlt : m.size_.width_ < m.values_.length := by
    rw [hwf]
    show m.size_.width_ < m.size_.volume
    have h3 : 2 * m.size_.width_ ≤ m.size_.depth_ * m.size_.height_ * m.size_.width_ :=
      Nat.mul_le_mul_right m.size_.width_ h2
    unfold size3d.volume
    omega
  refine ⟨?_, ⟨hd, hh, hw⟩, ?_, ?_, ?_, ?_⟩
  · rintro ⟨-, -, hxx⟩
    exact Nat.lt_irrefl _ hxx
  · rw [hidx1, hidx2]
  · rw [hidx2]
    exact hlt
  · show m.values_.getD (m.idx ⟨0, 0, m.size_.width_⟩) 0 =
      m.values_.getD (m.idx ⟨0, 1, 0⟩) 0
    rw [hidx1, hidx2]
  · show (m.values_.set (m.idx ⟨0, 0, m.size_.width_⟩) v).getD (m.idx ⟨0, 1, 0⟩) 0 = v
    rw [hidx1, hidx2]
    exact list_getD_set_self _ _ _ hlt

/-- Witness for C10 at the tensor of shape (1,2,2) with data [1,2,3,4]. -/
theorem unchecked_access_aliases_witness :
    (wf ⟨⟨1, 2, 2⟩, [1, 2, 3, 4]⟩ ∧
      1 ≤ (matrix3d.mk ⟨1, 2, 2⟩ [1, 2, 3, 4]).size_.depth_ ∧
      2 ≤ (matrix3d.mk ⟨1, 2, 2⟩ [1, 2, 3, 4]).size_.height_ ∧
      1 ≤ (matrix3d.mk ⟨1, 2, 2⟩ [1, 2, 3, 4]).size_.width_) ∧
    (¬ pos_in_bounds (matrix3d.mk ⟨1, 2, 2⟩ [1, 2, 3, 4]).size_
        ⟨0, 0, (matrix3d.mk ⟨1, 2, 2⟩ [1, 2, 3, 4]).size_.width_⟩ ∧
      pos_in_bounds (matrix3d.mk ⟨1, 2, 2⟩ [1, 2, 3, 4]).size_ ⟨0, 1, 0⟩ ∧
      (matrix3d.mk ⟨1, 2, 2⟩ [1, 2, 3, 4]).idx
          ⟨0, 0, (matrix3d.mk ⟨1, 2, 2⟩ [1, 2, 3, 4]).size_.width_⟩ =
        (matrix3d.mk ⟨1, 2, 2⟩ [1, 2, 3, 4]).idx ⟨0, 1, 0⟩ ∧
      (matrix3d.mk ⟨1, 2, 2⟩ [1, 2, 3, 4]).idx ⟨0, 1, 0⟩ <
        (matrix3d.mk ⟨1, 2, 2⟩ [1, 2, 3, 4]).values_.length ∧
      (matrix3d.mk ⟨1, 2, 2⟩ [1, 2, 3, 4]).get
          ⟨0, 0, (matrix3d.mk ⟨1, 2, 2⟩ [1, 2, 3, 4]).size_.width_⟩ =
        (matrix3d.mk ⟨1, 2, 2⟩ [1, 2, 3, 4]).get ⟨0, 1, 0⟩ ∧
      ((matrix3d.mk ⟨1, 2, 2⟩ [1, 2, 3, 4]).set
          ⟨0, 0, (matrix3d.mk ⟨1, 2, 2⟩ [1, 2, 3, 4]).size_.width_⟩ 9).get ⟨0, 1, 0⟩ = 9) :=
  ⟨⟨by decide, by decide, by decide, by decide⟩,
    unchecked_access_aliases ⟨⟨1, 2, 2⟩, [1, 2, 3, 4]⟩ 9
      (by decide) (by decide) (by decide) (by decide)⟩

end fd
